import Mathlib

/-!
Verification of the image-assurance operator: a shallow embedding of the
reconciliation controller (pkg/controller/imageassurance) and of the periodic
configuration syncer (configsync), together with theorems settling the
specified properties of both components.

Conventions of the embedding:
- Kubernetes client reads are modelled by `GetResult`: a read either finds the
  object, reports not-found, or fails with another error (the three cases the
  Go code distinguishes via errors.IsNotFound).
- Byte-slice and string map data of config maps and secrets is modelled as an
  association list of string pairs; Go's two-valued map index with the
  `!ok || len(v) == 0` check becomes `fieldMissing`.
- Functions from packages outside the embedded sources (utils, imageset,
  render, the component handler) are modelled by their outcome, recorded as a
  field of the `Cluster` snapshot that one reconciliation attempt observes.
- Go panics are explicit: `GoResult.panicked` and `Outcome.panicked`.
-/

namespace Operator

namespace ImageAssurance

/-- Keys and constants of the render/imageassurance package used by the
controller (their exact spellings do not affect any property below, only
their distinctness). -/
def PGConfigHostKey : String := "host"

def PGConfigNameKey : String := "name"

def PGConfigPortKey : String := "port"

def PGConfigOrgIDKey : String := "organizationID"

def PGConfigOrgNameKey : String := "organizationName"

def PGUserSecretKey : String := "username"

def PGUserPassKey : String := "password"

def PGServerCAKey : String := "server-ca"

def PGClientKeyKey : String := "client-key"

def PGClientCertKey : String := "client-cert"

def EncryptionKeyName : String := "encryption_key"

/-- operatorv1.TigeraStatusReady. -/
def TigeraStatusReady : String := "Ready"

/-- Lookup in an association list, mirroring a Go map index. -/
def lookupData (d : List (String × String)) (k : String) : Option String :=
  match d with
  | [] => none
  | (k', v) :: rest => if k' = k then some v else lookupData rest k

/-- Go's `if v, ok := m[k]; !ok || len(v) == 0` check on a data map. -/
def fieldMissing (d : List (String × String)) (k : String) : Bool :=
  match lookupData d k with
  | none => true
  | some v => v.length == 0

/-- Outcome of a single client.Get, distinguishing not-found from other
errors the way the Go code does with errors.IsNotFound. -/
inductive GetResult (α : Type) where
  | found : α → GetResult α
  | notFound : GetResult α
  | getErr : String → GetResult α
deriving DecidableEq, Repr

/-- corev1.ConfigMap, restricted to the Data field the controller reads. -/
structure ConfigMap where
  data : List (String × String)
deriving DecidableEq, Repr

/-- corev1.Secret, restricted to the Data field the controller reads. -/
structure Secret where
  data : List (String × String)
deriving DecidableEq, Repr

/-- One container of a pod template; the controller only reads Image. -/
structure Container where
  image : String
deriving DecidableEq, Repr

/-- batchv1.JobStatus, restricted to the counters the controller reads. -/
structure JobStatus where
  succeeded : Nat
  failed : Nat
deriving DecidableEq, Repr

/-- batchv1.Job, restricted to Status and Spec.Template.Spec.Containers. -/
structure Job where
  status : JobStatus
  containers : List Container
deriving DecidableEq, Repr

/-- operatorv1.Authentication, restricted to Status.State. -/
structure AuthenticationCR where
  state : String
deriving DecidableEq, Repr

/-- operatorv1.ImageAssurance, restricted to Status.State. -/
structure ImageAssuranceCR where
  statusState : String
deriving DecidableEq, Repr

/-- operatorv1.InstallationSpec, restricted to the image-reference fields
needsMigrating passes to components.GetReference. -/
structure InstallationSpec where
  registry : String
  imagePath : String
  imagePrefix : String
deriving DecidableEq, Repr

/-- An ImageSet, modelled as its image-name-to-digest entries. -/
def ImageSet := List (String × String)

/-- Result of running a piece of Go code that can also panic. -/
inductive GoResult (α : Type) where
  | ok : α → GoResult α
  | err : String → GoResult α
  | panicked : GoResult α
deriving DecidableEq, Repr

/-- getPGConfig: reads the postgres config map and requires the host, name,
port, organization-id and organization-name fields to be present and
non-empty, in that order. -/
def getPGConfig (res : GetResult ConfigMap) : Except String ConfigMap :=
  match res with
  | .notFound => .error "failed to read configmap tigera-image-assurance-postgres: not found"
  | .getErr e => .error ("failed to read configmap tigera-image-assurance-postgres: " ++ e)
  | .found cm =>
    if fieldMissing cm.data PGConfigHostKey then
      .error ("expected configmap to have a field named " ++ PGConfigHostKey)
    else if fieldMissing cm.data PGConfigNameKey then
      .error ("expected configmap to have a field named " ++ PGConfigNameKey)
    else if fieldMissing cm.data PGConfigPortKey then
      .error ("expected configmap to have a field named " ++ PGConfigPortKey)
    else if fieldMissing cm.data PGConfigOrgIDKey then
      .error ("expected configmap to have a field named " ++ PGConfigOrgIDKey)
    else if fieldMissing cm.data PGConfigOrgNameKey then
      .error ("expected configmap to have a field named " ++ PGConfigOrgNameKey)
    else
      .ok cm

/-- getOrCreatePGUserSecret: returns the postgres user secret if present
(validating its username and password fields), creates it from a random
password when absent, and propagates any other read failure. -/
def getOrCreatePGUserSecret (res : GetResult Secret) (randomPassword : Except String String)
    (orgID : String) : Except String Secret :=
  match res with
  | .notFound =>
    match randomPassword with
    | .error e => .error e
    | .ok pass => .ok { data := [(PGUserSecretKey, orgID ++ "_user"), (PGUserPassKey, pass)] }
  | .getErr e => .error ("failed to read secret tigera-image-assurance-postgres-user: " ++ e)
  | .found us =>
    if fieldMissing us.data PGUserSecretKey then
      .error ("expected secret to have a field named " ++ PGUserSecretKey)
    else if fieldMissing us.data PGUserPassKey then
      .error ("expected secret to have a field named " ++ PGUserPassKey)
    else
      .ok us

/-- getAdminPGUserSecret: reads the postgres admin user secret, requiring the
username and password fields to be present and non-empty. -/
def getAdminPGUserSecret (res : GetResult Secret) : Except String Secret :=
  match res with
  | .notFound => .error "failed to read secret tigera-image-assurance-postgres-admin: not found"
  | .getErr e => .error ("failed to read secret tigera-image-assurance-postgres-admin: " ++ e)
  | .found us =>
    if fieldMissing us.data PGUserSecretKey then
      .error ("expected secret to have a field named " ++ PGUserSecretKey)
    else if fieldMissing us.data PGUserPassKey then
      .error ("expected secret to have a field named " ++ PGUserPassKey)
    else
      .ok us

/-- getPGCertSecret: reads the postgres cert secret, requiring the server-ca,
client-key and client-cert fields to be present and non-empty. -/
def getPGCertSecret (res : GetResult Secret) : Except String Secret :=
  match res with
  | .notFound => .error "failed to read secret tigera-image-assurance-postgres-cert: not found"
  | .getErr e => .error ("failed to read secret tigera-image-assurance-postgres-cert: " ++ e)
  | .found cs =>
    if fieldMissing cs.data PGServerCAKey then
      .error ("expected secret to have a field named " ++ PGServerCAKey)
    else if fieldMissing cs.data PGClientKeyKey then
      .error ("expected secret to have a field named " ++ PGClientKeyKey)
    else if fieldMissing cs.data PGClientCertKey then
      .error ("expected secret to have a field named " ++ PGClientCertKey)
    else
      .ok cs

/-- getTenantKey: reads the tenant key secret, requiring the encryption-key
field to be present and non-empty. -/
def getTenantKey (res : GetResult Secret) : Except String Secret :=
  match res with
  | .notFound => .error "failed to read secret tigera-image-assurance-tenant-key: not found"
  | .getErr e => .error ("failed to read secret tigera-image-assurance-tenant-key: " ++ e)
  | .found cs =>
    if fieldMissing cs.data EncryptionKeyName then
      .error ("expected secret to have a field named " ++ EncryptionKeyName)
    else
      .ok cs

/-- getMigratorJob: returns the db-migrator job if it exists, nil when it is
not found, and the error otherwise. -/
def getMigratorJob (res : GetResult Job) : Except String (Option Job) :=
  match res with
  | .found j => .ok (some j)
  | .notFound => .ok none
  | .getErr e => .error e

/-- componentsUp: true if any of the api, scanner or caw deployments exists;
a non-not-found read error aborts with that error. -/
def componentsUp (api scanner caw : GetResult Unit) : Except String Bool :=
  match api with
  | .found _ => .ok true
  | .getErr e => .error e
  | .notFound =>
    match scanner with
    | .found _ => .ok true
    | .getErr e => .error e
    | .notFound =>
      match caw with
      | .found _ => .ok true
      | .getErr e => .error e
      | .notFound => .ok false

/-- Image name of components.ComponentImageAssuranceDBMigrator. -/
def migratorImage : String := "tigera/image-assurance-db-migrator"

/-- Version of components.ComponentImageAssuranceDBMigrator. -/
def migratorVersion : String := "master"

/-- Modelled from the spec: components.GetReference lives in the components
package, which is not part of the embedded sources. The spec describes its
role as computing "the image reference implied by the current desired image
set"; the controller unit test shows references of the shape
registry ++ image ++ colon ++ version. We model it as that deterministic
function of the installation's image fields and the image set: without an
image set the component's pinned version is used, with an image set the
digest recorded for the image is used, and an image set lacking an entry for
the image is an error. -/
def getReference (registry imagePath imagePrefix image version : String)
    (imageSet : Option ImageSet) : Except String String :=
  match imageSet with
  | none => .ok (registry ++ imagePath ++ imagePrefix ++ image ++ ":" ++ version)
  | some entries =>
    match lookupData entries image with
    | none => .error ("image set does not contain an entry for image " ++ image)
    | some digest => .ok (registry ++ imagePath ++ imagePrefix ++ image ++ "@" ++ digest)

/-- needsMigrating: computes whether the db-migrator must run, by comparing
the reference of the desired migrator image against the image recorded on
the previous job and inspecting the job's success counter. Mirrors the Go
code exactly, including the unguarded Containers[0] index, which panics when
the job's container list is empty. -/
def needsMigrating (installation : InstallationSpec) (imageSet : Option ImageSet)
    (migratorJob : Option Job) : GoResult Bool :=
  match getReference installation.registry installation.imagePath installation.imagePrefix
      migratorImage migratorVersion imageSet with
  | .error e => .err e
  | .ok newJobImageName =>
    match migratorJob with
    | none =>
      -- previousJobImageName stays "", so the final comparison sets the flag
      .ok true
    | some job =>
      match job.containers with
      | [] => .panicked
      | c :: _ =>
        let afterStatus := job.status.succeeded == 0
        let previousJobImageName := c.image
        .ok (afterStatus || (previousJobImageName == "" || previousJobImageName != newJobImageName))

/-- The cluster state and external-collaborator outcomes one reconciliation
attempt observes. Reads performed by the embedded helper functions are kept
as raw `GetResult`s; calls into packages outside the embedded sources are
modelled by the outcome the controller sees. -/
structure Cluster where
  /-- utils.GetImageAssurance. -/
  imageAssurance : GetResult ImageAssuranceCR
  /-- utils.GetInstallation (variant is unused by this controller's logic). -/
  installation : GetResult InstallationSpec
  /-- utils.GetNetworkingPullSecrets outcome. -/
  pullSecretsOk : Except String Unit
  /-- The postgres config map read by getPGConfig. -/
  pgConfigMap : GetResult ConfigMap
  /-- The postgres user secret read by getOrCreatePGUserSecret. -/
  pgUserSecret : GetResult Secret
  /-- utils.RandomPassword outcome used on the create path. -/
  randomPassword : Except String String
  /-- The postgres admin secret read by getAdminPGUserSecret. -/
  pgAdminUserSecret : GetResult Secret
  /-- The postgres cert secret read by getPGCertSecret. -/
  pgCertSecret : GetResult Secret
  /-- utils.ValidateCertPair on the internal manager secret: error, or the
  possibly-nil secret. -/
  internalMgrSecret : Except String (Option Secret)
  /-- getAPICertSecret outcome (ValidateCertPair plus EnsureCertificateSecret,
  both outside the embedded sources). -/
  apiCertSecret : Except String Secret
  /-- The db-migrator job read before the apply step. -/
  migratorJob : GetResult Job
  /-- imageset.GetImageSet outcome. -/
  imageSet : Except String (Option ImageSet)
  /-- imageset.ValidateImageSet outcome. -/
  imageSetValid : Except String Unit
  /-- The tenant key secret read by getTenantKey. -/
  tenantKeySecret : GetResult Secret
  /-- The api deployment read by componentsUp. -/
  apiDeployment : GetResult Unit
  /-- The scanner deployment read by componentsUp. -/
  scannerDeployment : GetResult Unit
  /-- The caw deployment read by componentsUp. -/
  cawDeployment : GetResult Unit
  /-- utils.GetAuthentication. -/
  authentication : GetResult AuthenticationCR
  /-- utils.GetKeyValidatorConfig outcome. -/
  keyValidatorConfig : Except String Unit
  /-- imageset.ApplyImageSet outcome. -/
  applyImageSetOk : Except String Unit
  /-- Outcome of the ch.CreateOrUpdateOrDelete loop over the rendered
  components. -/
  applyOk : Except String Unit
  /-- The db-migrator job re-read after the apply step. -/
  migratorJobAfter : GetResult Job
  /-- r.status.IsAvailable. -/
  isAvailable : Bool
  /-- r.client.Status().Update on the primary resource. -/
  statusUpdateOk : Except String Unit

/-- The (reconcile.Result, error) pair returned by Reconcile: requeue delay
in seconds (0 means none) and the returned error, or a panic. -/
inductive Outcome where
  | ret : Nat → Option String → Outcome
  | panicked : Outcome
deriving DecidableEq, Repr

/-- Observable events of one reconciliation attempt. -/
structure Trace where
  /-- r.status.OnCRNotFound was called. -/
  onCRNotFound : Bool := false
  /-- The argument of the r.status.SetDegraded call of this attempt, if any. -/
  degraded : Option (String × String) := none
  /-- r.status.ClearDegraded was called. -/
  cleared : Bool := false
  /-- ch.CreateOrUpdateOrDelete was invoked. -/
  applied : Bool := false
  /-- ia.Status.State was set to ready. -/
  readySet : Bool := false
  /-- r.client.Status().Update was invoked on the primary resource. -/
  statusUpdated : Bool := false
  /-- The value returned to the caller. -/
  outcome : Outcome := .ret 0 none
deriving DecidableEq, Repr

/-- The values carried from the collection phase into the scheduling
decision. -/
structure PreOk where
  needsMigrating : Bool
  componentsUp : Bool
deriving DecidableEq, Repr

/-- Reconcile, lines 149 through 275: the lookup of the primary resource and
the installation, and the collection of the DependencySet, through the
componentsUp computation. An early return is an `Except.error` carrying the
attempt's trace. -/
def collectDeps (c : Cluster) : Except Trace PreOk :=
  match c.imageAssurance with
  | .notFound => .error { onCRNotFound := true, outcome := .ret 0 none }
  | .getErr e =>
    .error { degraded := some ("Error querying for ImageAssurance", e), outcome := .ret 0 (some e) }
  | .found _ =>
  match c.installation with
  | .notFound =>
    .error { degraded := some ("Installation not found", "not found"), outcome := .ret 0 none }
  | .getErr e =>
    .error { degraded := some ("Error querying installation", e), outcome := .ret 0 (some e) }
  | .found installation =>
  match c.pullSecretsOk with
  | .error e =>
    .error { degraded := some ("Error retrieving image pull secrets", e), outcome := .ret 0 (some e) }
  | .ok _ =>
  match getPGConfig c.pgConfigMap with
  | .error e =>
    .error { degraded := some ("Error retrieving postgres configuration", e), outcome := .ret 0 (some e) }
  | .ok pgConfig =>
  match getOrCreatePGUserSecret c.pgUserSecret c.randomPassword
      ((lookupData pgConfig.data PGConfigOrgIDKey).getD "") with
  | .error e =>
    .error { degraded := some ("Error retrieving postgres secret", e), outcome := .ret 0 (some e) }
  | .ok _ =>
  match getAdminPGUserSecret c.pgAdminUserSecret with
  | .error e =>
    .error { degraded := some ("Error retrieving postgres admin secret", e), outcome := .ret 0 (some e) }
  | .ok _ =>
  match getPGCertSecret c.pgCertSecret with
  | .error e =>
    .error { degraded := some ("Error retrieving postgres cert secret", e), outcome := .ret 0 (some e) }
  | .ok _ =>
  match c.internalMgrSecret with
  | .error e =>
    .error { degraded := some ("Error retrieving internal manager tls secret", e), outcome := .ret 0 (some e) }
  | .ok none =>
    .error { degraded := some ("Waiting for internal manager tls certificate to be available", ""),
             outcome := .ret 0 none }
  | .ok (some _) =>
  match c.apiCertSecret with
  | .error e =>
    .error { degraded := some ("Error in ensuring TLS certificate for image-assurance api", e),
             outcome := .ret 0 (some e) }
  | .ok _ =>
  match getMigratorJob c.migratorJob with
  | .error e =>
    .error { degraded := some ("Error retrieving db-migrator job", e), outcome := .ret 0 (some e) }
  | .ok migratorJobOpt =>
  match c.imageSet with
  | .error e =>
    .error { degraded := some ("Error retrieving image set", e), outcome := .ret 0 (some e) }
  | .ok imageSetOpt =>
  match c.imageSetValid with
  | .error e =>
    .error { degraded := some ("Error validating image set", e), outcome := .ret 0 (some e) }
  | .ok _ =>
  match getTenantKey c.tenantKeySecret with
  | .error e =>
    .error { degraded := some ("Error retrieving tenant key", e), outcome := .ret 0 (some e) }
  | .ok _ =>
  match needsMigrating installation imageSetOpt migratorJobOpt with
  | .panicked => .error { outcome := .panicked }
  | .err e =>
    .error { degraded := some ("Error calculating if migration is needed", e), outcome := .ret 0 (some e) }
  | .ok needs =>
  match componentsUp c.apiDeployment c.scannerDeployment c.cawDeployment with
  | .error e =>
    .error { degraded := some ("Error when checking if image assurance deployments are up", e),
             outcome := .ret 20 (some e) }
  | .ok compUp => .ok { needsMigrating := needs, componentsUp := compUp }

/-- Reconcile, lines 277 through 327: the authentication gate, the key
validator config, the rendered change-set and the apply loop. -/
def authAndApply (c : Cluster) (p : PreOk) : Except Trace PreOk :=
  match c.authentication with
  | .getErr e =>
    .error { degraded := some ("Error querying Authentication", e), outcome := .ret 0 (some e) }
  | .found au =>
    if au.state != TigeraStatusReady then
      .error { degraded := some ("Authentication is not ready", "authenticationCR status: " ++ au.state),
               outcome := .ret 0 none }
    else renderAndApply c p
  | .notFound => renderAndApply c p
where
  /-- Lines 289 through 327 once the authentication gate has passed. -/
  renderAndApply (c : Cluster) (p : PreOk) : Except Trace PreOk :=
    match c.keyValidatorConfig with
    | .error e =>
      .error { degraded := some ("Failed to process the authentication CR.", e), outcome := .ret 0 (some e) }
    | .ok _ =>
    match c.applyImageSetOk with
    | .error e =>
      .error { degraded := some ("Error with images from ImageSet", e), outcome := .ret 0 (some e) }
    | .ok _ =>
    match c.applyOk with
    | .error e =>
      .error { degraded := some ("Error creating / updating resource", e), applied := true,
               outcome := .ret 0 (some e) }
    | .ok _ => .ok p

/-- Everything of Reconcile before the post-apply scheduling decision. -/
def preApply (c : Cluster) : Except Trace PreOk :=
  match collectDeps c with
  | .error t => .error t
  | .ok p => authAndApply c p

/-- The detail string of the "Migrator job failed" degraded status, from
fmt.Errorf("migrator job failed %v", migratorJob.Status). -/
def migratorFailedDetail (j : Job) : String :=
  "migrator job failed succeeded=" ++ toString j.status.succeeded
    ++ " failed=" ++ toString j.status.failed

/-- Reconcile, lines 329 through 372: the re-read of the migrator job and
the scheduling decision table. -/
def postApply (c : Cluster) (p : PreOk) : Trace :=
  match getMigratorJob c.migratorJobAfter with
  | .error e =>
    { applied := true, degraded := some ("Error retrieving db-migrator job", e),
      outcome := .ret 0 (some e) }
  | .ok none =>
    { applied := true, degraded := some ("Waiting for migrator job to be created", ""),
      outcome := .ret 1 none }
  | .ok (some job) =>
    if p.componentsUp && p.needsMigrating then
      { applied := true, degraded := some ("Waiting for migrator job to be created", ""),
        outcome := .ret 1 none }
    else if job.status.succeeded == 0 && job.status.failed == 0 then
      { applied := true, degraded := some ("Waiting for migrator job to finish running", ""),
        outcome := .ret 0 none }
    else if job.status.succeeded == 0 then
      { applied := true, degraded := some ("Migrator job failed", migratorFailedDetail job),
        outcome := .ret 0 none }
    else if !c.isAvailable then
      { applied := true, cleared := true, outcome := .ret 30 none }
    else
      match c.statusUpdateOk with
      | .error e =>
        { applied := true, cleared := true, readySet := true, statusUpdated := true,
          outcome := .ret 0 (some e) }
      | .ok _ =>
        { applied := true, cleared := true, readySet := true, statusUpdated := true,
          outcome := .ret 0 none }

/-- Reconcile: one reconciliation attempt over the observed cluster state. -/
def reconcile (c : Cluster) : Trace :=
  match preApply c with
  | .error t => t
  | .ok p => postApply c p

/-- A located postgres config map missing one of its required fields. -/
def configMapMalformed (g : GetResult ConfigMap) : Bool :=
  match g with
  | .found cm =>
    fieldMissing cm.data PGConfigHostKey || fieldMissing cm.data PGConfigNameKey
      || fieldMissing cm.data PGConfigPortKey || fieldMissing cm.data PGConfigOrgIDKey
      || fieldMissing cm.data PGConfigOrgNameKey
  | _ => false

/-- A located secret missing one of the given required fields. -/
def secretMalformed (g : GetResult Secret) (keys : List String) : Bool :=
  match g with
  | .found s => keys.any (fun k => fieldMissing s.data k)
  | _ => false

/-- One of the five validated dependency resources is present but missing a
required field. -/
def depsMalformed (c : Cluster) : Bool :=
  configMapMalformed c.pgConfigMap
    || secretMalformed c.pgUserSecret [PGUserSecretKey, PGUserPassKey]
    || secretMalformed c.pgAdminUserSecret [PGUserSecretKey, PGUserPassKey]
    || secretMalformed c.pgCertSecret [PGServerCAKey, PGClientKeyKey, PGClientCertKey]
    || secretMalformed c.tenantKeySecret [EncryptionKeyName]

theorem configMapMalformed_errors (g : GetResult ConfigMap)
    (h : configMapMalformed g = true) : ∃ e, getPGConfig g = Except.error e := by
  cases g with
  | notFound => simp [configMapMalformed] at h
  | getErr e => simp [configMapMalformed] at h
  | found cm =>
    simp only [configMapMalformed, Bool.or_eq_true] at h
    unfold getPGConfig
    repeat' split
    all_goals first
    | exact ⟨_, rfl⟩
    | simp_all

theorem userSecretMalformed_errors (g : GetResult Secret)
    (rp : Except String String) (orgID : String)
    (h : secretMalformed g [PGUserSecretKey, PGUserPassKey] = true) :
    ∃ e, getOrCreatePGUserSecret g rp orgID = Except.error e := by
  cases g with
  | notFound => simp [secretMalformed] at h
  | getErr e => simp [secretMalformed] at h
  | found s =>
    simp only [secretMalformed, List.any_cons, List.any_nil, Bool.or_eq_true, Bool.or_false] at h
    unfold getOrCreatePGUserSecret
    repeat' split
    all_goals first
    | exact ⟨_, rfl⟩
    | simp_all

theorem adminSecretMalformed_errors (g : GetResult Secret)
    (h : secretMalformed g [PGUserSecretKey, PGUserPassKey] = true) :
    ∃ e, getAdminPGUserSecret g = Except.error e := by
  cases g with
  | notFound => simp [secretMalformed] at h
  | getErr e => simp [secretMalformed] at h
  | found s =>
    simp only [secretMalformed, List.any_cons, List.any_nil, Bool.or_eq_true, Bool.or_false] at h
    unfold getAdminPGUserSecret
    repeat' split
    all_goals first
    | exact ⟨_, rfl⟩
    | simp_all

theorem certSecretMalformed_errors (g : GetResult Secret)
    (h : secretMalformed g [PGServerCAKey, PGClientKeyKey, PGClientCertKey] = true) :
    ∃ e, getPGCertSecret g = Except.error e := by
  cases g with
  | notFound => simp [secretMalformed] at h
  | getErr e => simp [secretMalformed] at h
  | found s =>
    simp only [secretMalformed, List.any_cons, List.any_nil, Bool.or_eq_true, Bool.or_false] at h
    unfold getPGCertSecret
    repeat' split
    all_goals first
    | exact ⟨_, rfl⟩
    | simp_all

theorem tenantKeyMalformed_errors (g : GetResult Secret)
    (h : secretMalformed g [EncryptionKeyName] = true) :
    ∃ e, getTenantKey g = Except.error e := by
  cases g with
  | notFound => simp [secretMalformed] at h
  | getErr e => simp [secretMalformed] at h
  | found s =>
    simp only [secretMalformed, List.any_cons, List.any_nil, Bool.or_false] at h
    unfold getTenantKey
    repeat' split
    all_goals first
    | exact ⟨_, rfl⟩
    | simp_all

/-- A secret carrying the username and password fields. -/
def okUserSecret : Secret :=
  { data := [(PGUserSecretKey, "user"), (PGUserPassKey, "pass")] }

/-- A secret carrying the three postgres cert fields. -/
def okCertSecret : Secret :=
  { data := [(PGServerCAKey, "ca"), (PGClientKeyKey, "key"), (PGClientCertKey, "cert")] }

/-- A secret carrying the tenant encryption key field. -/
def okTenantSecret : Secret := { data := [(EncryptionKeyName, "0123456789abcdef")] }

/-- A config map carrying all five postgres connection fields. -/
def okConfigMap : ConfigMap :=
  { data := [(PGConfigHostKey, "db.example.org"), (PGConfigNameKey, "ia"),
             (PGConfigPortKey, "5432"), (PGConfigOrgIDKey, "org1"),
             (PGConfigOrgNameKey, "org one")] }

/-- The installation used by the concrete fixtures. -/
def inst0 : InstallationSpec := { registry := "reg.example.org/", imagePath := "", imagePrefix := "" }

/-- The migrator image reference implied by inst0 with no image set. -/
def ref0 : String := "reg.example.org/" ++ migratorImage ++ ":" ++ migratorVersion

/-- A cluster snapshot on which every dependency is satisfied, the migrator
job does not exist yet, and no image-assurance deployment is up. -/
def baseCluster : Cluster :=
  { imageAssurance := .found { statusState := "" }
    installation := .found inst0
    pullSecretsOk := .ok ()
    pgConfigMap := .found okConfigMap
    pgUserSecret := .found okUserSecret
    randomPassword := .ok "sixteenrandchars"
    pgAdminUserSecret := .found okUserSecret
    pgCertSecret := .found okCertSecret
    internalMgrSecret := .ok (some okCertSecret)
    apiCertSecret := .ok okCertSecret
    migratorJob := .notFound
    imageSet := .ok none
    imageSetValid := .ok ()
    tenantKeySecret := .found okTenantSecret
    apiDeployment := .notFound
    scannerDeployment := .notFound
    cawDeployment := .notFound
    authentication := .notFound
    keyValidatorConfig := .ok ()
    applyImageSetOk := .ok ()
    applyOk := .ok ()
    migratorJobAfter := .notFound
    isAvailable := true
    statusUpdateOk := .ok () }

/-- A migrator job with zero successes and one failure, running ref0. -/
def failedJob : Job := { status := { succeeded := 0, failed := 1 }, containers := [{ image := ref0 }] }

/-- A migrator job that succeeded, running ref0. -/
def succeededJob : Job := { status := { succeeded := 1, failed := 0 }, containers := [{ image := ref0 }] }

/-- A migrator job that succeeded but recorded a stale image reference. -/
def staleSucceededJob : Job :=
  { status := { succeeded := 1, failed := 0 }, containers := [{ image := "old.example.org/migrator:v0" }] }

/-- A migrator job whose pod template holds no containers. -/
def emptyContainersJob : Job := { status := { succeeded := 0, failed := 0 }, containers := [] }

example : preApply baseCluster = .ok { needsMigrating := true, componentsUp := false } := rfl

example : reconcile baseCluster =
    { applied := true, degraded := some ("Waiting for migrator job to be created", ""),
      outcome := .ret 1 none } := rfl

example : reconcile { baseCluster with
    migratorJob := .found succeededJob
    migratorJobAfter := .found succeededJob } =
    { applied := true, cleared := true, readySet := true, statusUpdated := true,
      outcome := .ret 0 none } := rfl

example : reconcile { baseCluster with
    migratorJob := .found succeededJob
    migratorJobAfter := .found failedJob } =
    { applied := true, degraded := some ("Migrator job failed", migratorFailedDetail failedJob),
      outcome := .ret 0 none } := rfl

/-- C1: if one of the five validated dependency resources is present but
missing a required field (the postgres config map, the postgres user secret,
the admin secret, the cert secret, or the tenant key secret), and the primary
resource exists, then the attempt reports a degraded status with a non-empty
cause, returns without panicking, and never invokes CreateOrUpdateOrDelete. -/
theorem reconcile_malformed_dependency_skips_apply (c : Cluster) (ia : ImageAssuranceCR)
    (hia : c.imageAssurance = GetResult.found ia) (h : depsMalformed c = true) :
    (reconcile c).applied = false
    ∧ (∃ d, (reconcile c).degraded = some d ∧ d.1 ≠ "")
    ∧ (reconcile c).outcome ≠ Outcome.panicked := by
  unfold reconcile preApply collectDeps
  rw [hia]
  cases hinst : c.installation with
  | notFound => (refine ⟨rfl, ⟨_, rfl, ?_⟩, fun hq => Outcome.noConfusion hq⟩; simp)
  | getErr e => (refine ⟨rfl, ⟨_, rfl, ?_⟩, fun hq => Outcome.noConfusion hq⟩; simp)
  | found installation =>
  dsimp only
  cases hpull : c.pullSecretsOk with
  | error e => (refine ⟨rfl, ⟨_, rfl, ?_⟩, fun hq => Outcome.noConfusion hq⟩; simp)
  | ok u =>
  dsimp only
  cases hpg : getPGConfig c.pgConfigMap with
  | error e => (refine ⟨rfl, ⟨_, rfl, ?_⟩, fun hq => Outcome.noConfusion hq⟩; simp)
  | ok pgConfig =>
  dsimp only
  cases huser : getOrCreatePGUserSecret c.pgUserSecret c.randomPassword
      ((lookupData pgConfig.data PGConfigOrgIDKey).getD "") with
  | error e => (refine ⟨rfl, ⟨_, rfl, ?_⟩, fun hq => Outcome.noConfusion hq⟩; simp)
  | ok us =>
  dsimp only
  cases hadmin : getAdminPGUserSecret c.pgAdminUserSecret with
  | error e => (refine ⟨rfl, ⟨_, rfl, ?_⟩, fun hq => Outcome.noConfusion hq⟩; simp)
  | ok as' =>
  dsimp only
  cases hcert : getPGCertSecret c.pgCertSecret with
  | error e => (refine ⟨rfl, ⟨_, rfl, ?_⟩, fun hq => Outcome.noConfusion hq⟩; simp)
  | ok cs =>
  dsimp only
  cases hmgr : c.internalMgrSecret with
  | error e => (refine ⟨rfl, ⟨_, rfl, ?_⟩, fun hq => Outcome.noConfusion hq⟩; simp)
  | ok mopt =>
  cases mopt with
  | none => (refine ⟨rfl, ⟨_, rfl, ?_⟩, fun hq => Outcome.noConfusion hq⟩; simp)
  | some ms =>
  dsimp only
  cases hapi : c.apiCertSecret with
  | error e => (refine ⟨rfl, ⟨_, rfl, ?_⟩, fun hq => Outcome.noConfusion hq⟩; simp)
  | ok api =>
  dsimp only
  cases hjob : getMigratorJob c.migratorJob with
  | error e => (refine ⟨rfl, ⟨_, rfl, ?_⟩, fun hq => Outcome.noConfusion hq⟩; simp)
  | ok jobOpt =>
  dsimp only
  cases his : c.imageSet with
  | error e => (refine ⟨rfl, ⟨_, rfl, ?_⟩, fun hq => Outcome.noConfusion hq⟩; simp)
  | ok isOpt =>
  dsimp only
  cases hval : c.imageSetValid with
  | error e => (refine ⟨rfl, ⟨_, rfl, ?_⟩, fun hq => Outcome.noConfusion hq⟩; simp)
  | ok v =>
  dsimp only
  cases htk : getTenantKey c.tenantKeySecret with
  | error e => (refine ⟨rfl, ⟨_, rfl, ?_⟩, fun hq => Outcome.noConfusion hq⟩; simp)
  | ok tk =>
  -- all five validated resources were accepted: contradict depsMalformed
  exfalso
  unfold depsMalformed at h
  simp only [Bool.or_eq_true] at h
  rcases h with ((((hb | hb) | hb) | hb) | hb)
  · rcases configMapMalformed_errors _ hb with ⟨e, he⟩
    rw [he] at hpg; cases hpg
  · rcases userSecretMalformed_errors _ c.randomPassword
        ((lookupData pgConfig.data PGConfigOrgIDKey).getD "") hb with ⟨e, he⟩
    rw [he] at huser; cases huser
  · rcases adminSecretMalformed_errors _ hb with ⟨e, he⟩
    rw [he] at hadmin; cases hadmin
  · rcases certSecretMalformed_errors _ hb with ⟨e, he⟩
    rw [he] at hcert; cases hcert
  · rcases tenantKeyMalformed_errors _ hb with ⟨e, he⟩
    rw [he] at htk; cases htk

/-- C10: if dependency collection succeeds and an Authentication CR exists
whose status state is not ready, the attempt reports the degraded status
"Authentication is not ready", applies nothing, and returns a nil error with
no requeue delay. -/
theorem reconcile_auth_not_ready_pauses (c : Cluster) (p : PreOk) (au : AuthenticationCR)
    (hpre : collectDeps c = Except.ok p)
    (hau : c.authentication = GetResult.found au)
    (hstate : au.state ≠ TigeraStatusReady) :
    (reconcile c).degraded = some ("Authentication is not ready", "authenticationCR status: " ++ au.state)
    ∧ (reconcile c).applied = false
    ∧ (reconcile c).outcome = Outcome.ret 0 none := by
  have hb : (au.state != TigeraStatusReady) = true := bne_iff_ne.mpr hstate
  unfold reconcile preApply
  rw [hpre]
  dsimp only
  unfold authAndApply
  rw [hau]
  dsimp only
  rw [hb]
  exact ⟨rfl, rfl, rfl⟩

/-- C2: if the attempt reaches the post-apply scheduling decision and the
re-read migrator job is absent, or the components-up flag and the
needs-migrating flag are both set, the attempt reports "Waiting for migrator
job to be created", requeues after 1 second with a nil error, and does not
set the ready state. -/
theorem reconcile_waits_for_migrator_creation (c : Cluster) (p : PreOk) (jobOpt : Option Job)
    (hpre : preApply c = Except.ok p)
    (hjob : getMigratorJob c.migratorJobAfter = Except.ok jobOpt)
    (h : jobOpt = none ∨ (p.componentsUp = true ∧ p.needsMigrating = true)) :
    (reconcile c).degraded = some ("Waiting for migrator job to be created", "")
    ∧ (reconcile c).outcome = Outcome.ret 1 none
    ∧ (reconcile c).readySet = false := by
  unfold reconcile
  rw [hpre]
  dsimp only
  unfold postApply
  rw [hjob]
  cases jobOpt with
  | none => exact ⟨rfl, rfl, rfl⟩
  | some job =>
    dsimp only
    rcases h with h | ⟨h1, h2⟩
    · cases h
    · rw [h1, h2]
      exact ⟨rfl, rfl, rfl⟩

/-- C3 (amended): if the attempt reaches the post-apply scheduling decision,
the re-read migrator job exists with zero successes and a nonzero failure
count, and the earlier waiting-for-creation row does not match (it is not
the case that components are up and migration is still needed), then the
attempt reports "Migrator job failed" and returns a nil error with no
requeue, without clearing the degraded status and without setting the ready
state. -/
theorem reconcile_migrator_failed (c : Cluster) (p : PreOk) (job : Job)
    (hpre : preApply c = Except.ok p)
    (hjob : getMigratorJob c.migratorJobAfter = Except.ok (some job))
    (hs : job.status.succeeded = 0) (hf : job.status.failed ≠ 0)
    (hrow : ¬(p.componentsUp = true ∧ p.needsMigrating = true)) :
    (reconcile c).degraded = some ("Migrator job failed", migratorFailedDetail job)
    ∧ (reconcile c).outcome = Outcome.ret 0 none
    ∧ (reconcile c).cleared = false
    ∧ (reconcile c).readySet = false := by
  have h1 : (p.componentsUp && p.needsMigrating) = false := by
    cases hcu : p.componentsUp <;> cases hnm : p.needsMigrating <;> simp_all
  have h2 : (job.status.succeeded == 0 && job.status.failed == 0) = false := by
    simp [hs, hf]
  have h3 : (job.status.succeeded == 0) = true := by simp [hs]
  unfold reconcile
  rw [hpre]
  dsimp only
  unfold postApply
  rw [hjob]
  dsimp only
  rw [h1, h2, h3]
  exact ⟨rfl, rfl, rfl, rfl⟩

/-- C4 (amended): if the attempt reaches the post-apply scheduling decision,
the re-read migrator job exists with a nonzero success count, and the
earlier waiting-for-creation row does not match, then the attempt clears the
degraded status; when availability is still false it requeues after 30
seconds with a nil error without touching the primary resource's status, and
otherwise it sets the resource's state to ready and persists it through a
status update. -/
theorem reconcile_migrator_succeeded (c : Cluster) (p : PreOk) (job : Job)
    (hpre : preApply c = Except.ok p)
    (hjob : getMigratorJob c.migratorJobAfter = Except.ok (some job))
    (hs : job.status.succeeded ≠ 0)
    (hrow : ¬(p.componentsUp = true ∧ p.needsMigrating = true)) :
    (reconcile c).cleared = true
    ∧ (c.isAvailable = false →
        (reconcile c).outcome = Outcome.ret 30 none
        ∧ (reconcile c).readySet = false ∧ (reconcile c).statusUpdated = false)
    ∧ (c.isAvailable = true →
        (reconcile c).readySet = true ∧ (reconcile c).statusUpdated = true) := by
  have h1 : (p.componentsUp && p.needsMigrating) = false := by
    cases hcu : p.componentsUp <;> cases hnm : p.needsMigrating <;> simp_all
  have h3 : (job.status.succeeded == 0) = false := by simp [hs]
  have h2 : (job.status.succeeded == 0 && job.status.failed == 0) = false := by
    simp [h3]
  unfold reconcile
  rw [hpre]
  dsimp only
  unfold postApply
  rw [hjob]
  dsimp only
  rw [h1, h2, h3]
  cases hav : c.isAvailable with
  | false =>
    refine ⟨rfl, ?_, ?_⟩
    · intro hx
      exact ⟨rfl, rfl, rfl⟩
    · intro hx
      exact nomatch hx
  | true =>
    cases hup : c.statusUpdateOk with
    | error e =>
      refine ⟨rfl, ?_, ?_⟩
      · intro hx
        exact nomatch hx
      · intro hx
        exact ⟨rfl, rfl⟩
    | ok v =>
      refine ⟨rfl, ?_, ?_⟩
      · intro hx
        exact nomatch hx
      · intro hx
        exact ⟨rfl, rfl⟩

theorem getReference_ok_ne_empty (registry imagePath imagePrefix image version : String)
    (is : Option ImageSet) (r : String)
    (h : getReference registry imagePath imagePrefix image version is = Except.ok r) :
    r ≠ "" := by
  unfold getReference at h
  cases is with
  | none =>
    cases h
    intro hr
    have hlen : (registry ++ imagePath ++ imagePrefix ++ image ++ ":" ++ version).length = 0 := by
      rw [hr]
      decide
    simp only [String.length_append] at hlen
    have h1 : (":" : String).length = 1 := rfl
    omega
  | some entries =>
    dsimp only at h
    cases hl : lookupData entries image with
    | none => rw [hl] at h; cases h
    | some digest =>
      rw [hl] at h
      cases h
      intro hr
      have hlen : (registry ++ imagePath ++ imagePrefix ++ image ++ "@" ++ digest).length = 0 := by
        rw [hr]
        decide
      simp only [String.length_append] at hlen
      have h1 : ("@" : String).length = 1 := rfl
      omega

/-- C5: whenever needsMigrating returns a boolean (the desired migrator
image reference resolved to r and the container access did not panic), that
boolean is true exactly when the previous migrator job is absent, or its
recorded container image differs from r, or the job has zero recorded
successes. -/
theorem needsMigrating_characterisation (installation : InstallationSpec)
    (is : Option ImageSet) (migratorJob : Option Job) (b : Bool) (r : String)
    (href : getReference installation.registry installation.imagePath installation.imagePrefix
        migratorImage migratorVersion is = Except.ok r)
    (h : needsMigrating installation is migratorJob = GoResult.ok b) :
    b = true ↔
      (migratorJob = none
        ∨ ∃ j c cs, migratorJob = some j ∧ j.containers = c :: cs
            ∧ (c.image ≠ r ∨ j.status.succeeded = 0)) := by
  have hr := getReference_ok_ne_empty _ _ _ _ _ _ _ href
  unfold needsMigrating at h
  rw [href] at h
  dsimp only at h
  cases migratorJob with
  | none =>
    cases h
    simp
  | some j =>
    dsimp only at h
    cases hc : j.containers with
    | nil => rw [hc] at h; cases h
    | cons c0 cs0 =>
      rw [hc] at h
      dsimp only at h
      cases h
      simp only [Bool.or_eq_true, beq_iff_eq, bne_iff_ne]
      constructor
      · rintro (hsucc | hemp | hne)
        · exact Or.inr ⟨j, c0, cs0, rfl, hc, Or.inr hsucc⟩
        · exact Or.inr ⟨j, c0, cs0, rfl, hc, Or.inl (by rw [hemp]; exact fun he => hr he.symm)⟩
        · exact Or.inr ⟨j, c0, cs0, rfl, hc, Or.inl hne⟩
      · rintro (hnone | ⟨j', c', cs', hj, hcs, hdisj⟩)
        · cases hnone
        · cases hj
          rw [hc] at hcs
          cases hcs
          rcases hdisj with hne | hsucc
          · exact Or.inr (Or.inr hne)
          · exact Or.inl hsucc

/-- A cluster snapshot identical to baseCluster except that the migrator job
exists with an empty container list. -/
def panicCluster : Cluster := { baseCluster with migratorJob := .found emptyContainersJob }

/-- C6: the code can panic. On a migrator job whose pod template carries no
containers, needsMigrating evaluates Containers[0] out of range, and the
whole reconciliation attempt aborts in a panic rather than returning a
value — contradicting the specified no-panic failure semantics. -/
theorem needsMigrating_empty_containers_panics :
    needsMigrating inst0 none (some emptyContainersJob) = GoResult.panicked
    ∧ (reconcile panicCluster).outcome = Outcome.panicked :=
  ⟨rfl, rfl⟩

/-- A cluster whose postgres config map lacks the organization-id field. -/
def missingOrgCluster : Cluster := { baseCluster with
    pgConfigMap := .found { data := [(PGConfigHostKey, "db.example.org"),
                                     (PGConfigNameKey, "ia"), (PGConfigPortKey, "5432")] } }

/-- A cluster where the migrator job failed and no deployment is up. -/
def failedJobCluster : Cluster := { baseCluster with
    migratorJob := .found failedJob
    migratorJobAfter := .found failedJob }

/-- A cluster where the migrator job succeeded with the desired image. -/
def succeededJobCluster : Cluster := { baseCluster with
    migratorJob := .found succeededJob
    migratorJobAfter := .found succeededJob }

/-- A cluster where the migrator job failed while the api deployment is up
and migration is still needed. -/
def failedJobComponentsUpCluster : Cluster := { baseCluster with
    migratorJob := .found failedJob
    apiDeployment := .found ()
    migratorJobAfter := .found failedJob }

/-- A cluster where the migrator job succeeded but recorded a stale image,
while the api deployment is up. -/
def staleSucceededCluster : Cluster := { baseCluster with
    migratorJob := .found staleSucceededJob
    apiDeployment := .found ()
    migratorJobAfter := .found staleSucceededJob }

/-- A cluster with an Authentication CR whose state is not ready. -/
def authNotReadyCluster : Cluster := { baseCluster with
    authentication := .found { state := "Degraded" } }

theorem reconcile_malformed_dependency_skips_apply_witness :
    (reconcile missingOrgCluster).applied = false
    ∧ (∃ d, (reconcile missingOrgCluster).degraded = some d ∧ d.1 ≠ "")
    ∧ (reconcile missingOrgCluster).outcome ≠ Outcome.panicked :=
  reconcile_malformed_dependency_skips_apply missingOrgCluster { statusState := "" } rfl
    (by decide)

theorem reconcile_auth_not_ready_pauses_witness :
    (reconcile authNotReadyCluster).degraded =
      some ("Authentication is not ready", "authenticationCR status: " ++ "Degraded")
    ∧ (reconcile authNotReadyCluster).applied = false
    ∧ (reconcile authNotReadyCluster).outcome = Outcome.ret 0 none :=
  reconcile_auth_not_ready_pauses authNotReadyCluster
    { needsMigrating := true, componentsUp := false } { state := "Degraded" } rfl rfl (by decide)

theorem reconcile_waits_for_migrator_creation_witness :
    (reconcile baseCluster).degraded = some ("Waiting for migrator job to be created", "")
    ∧ (reconcile baseCluster).outcome = Outcome.ret 1 none
    ∧ (reconcile baseCluster).readySet = false :=
  reconcile_waits_for_migrator_creation baseCluster
    { needsMigrating := true, componentsUp := false } none rfl rfl (Or.inl rfl)

/-- Counterexample to C3 as stated: on this concrete cluster the re-read
migrator job exists with zero successes and one failure, yet the attempt
reports "Waiting for migrator job to be created" with a 1 second requeue
instead of "Migrator job failed", because the waiting-for-creation row of
the decision table matches first (components are up and migration is still
needed). -/
theorem reconcile_failed_job_shadowed_by_waiting_row :
    getMigratorJob failedJobComponentsUpCluster.migratorJobAfter = Except.ok (some failedJob)
    ∧ failedJob.status.succeeded = 0
    ∧ failedJob.status.failed = 1
    ∧ (reconcile failedJobComponentsUpCluster).degraded =
        some ("Waiting for migrator job to be created", "")
    ∧ (reconcile failedJobComponentsUpCluster).degraded ≠
        some ("Migrator job failed", migratorFailedDetail failedJob)
    ∧ (reconcile failedJobComponentsUpCluster).outcome = Outcome.ret 1 none :=
  ⟨rfl, rfl, rfl, rfl, by decide, rfl⟩

theorem reconcile_migrator_failed_witness :
    (reconcile failedJobCluster).degraded =
      some ("Migrator job failed", migratorFailedDetail failedJob)
    ∧ (reconcile failedJobCluster).outcome = Outcome.ret 0 none
    ∧ (reconcile failedJobCluster).cleared = false
    ∧ (reconcile failedJobCluster).readySet = false :=
  reconcile_migrator_failed failedJobCluster
    { needsMigrating := true, componentsUp := false } failedJob rfl rfl rfl (by decide)
    (fun hq => nomatch hq.1)

/-- Counterexample to C4 as stated: on this concrete cluster the re-read
migrator job exists with one success, yet the attempt does not clear the
degraded status and instead reports "Waiting for migrator job to be
created", because the waiting-for-creation row matches first (components are
up and the recorded image is stale, so migration is still needed). -/
theorem reconcile_succeeded_job_shadowed_by_waiting_row :
    getMigratorJob staleSucceededCluster.migratorJobAfter = Except.ok (some staleSucceededJob)
    ∧ staleSucceededJob.status.succeeded = 1
    ∧ (reconcile staleSucceededCluster).cleared = false
    ∧ (reconcile staleSucceededCluster).degraded =
        some ("Waiting for migrator job to be created", "")
    ∧ (reconcile staleSucceededCluster).readySet = false :=
  ⟨rfl, rfl, rfl, rfl, rfl⟩

theorem reconcile_migrator_succeeded_witness :
    (reconcile succeededJobCluster).cleared = true
    ∧ (succeededJobCluster.isAvailable = false →
        (reconcile succeededJobCluster).outcome = Outcome.ret 30 none
        ∧ (reconcile succeededJobCluster).readySet = false
        ∧ (reconcile succeededJobCluster).statusUpdated = false)
    ∧ (succeededJobCluster.isAvailable = true →
        (reconcile succeededJobCluster).readySet = true
        ∧ (reconcile succeededJobCluster).statusUpdated = true) :=
  reconcile_migrator_succeeded succeededJobCluster
    { needsMigrating := false, componentsUp := false } succeededJob rfl rfl (by decide)
    (fun hq => nomatch hq.2)

theorem needsMigrating_characterisation_witness :
    true = true ↔
      (some failedJob = none
        ∨ ∃ j c cs, some failedJob = some j ∧ j.containers = c :: cs
            ∧ (c.image ≠ ref0 ∨ j.status.succeeded = 0)) :=
  needsMigrating_characterisation inst0 none (some failedJob) true ref0 rfl rfl

end ImageAssurance

namespace ConfigSync

/-- The two control messages of the syncer's api channel: startSyncRequest
and getErrRequest. -/
inductive ApiMsg where
  | startSync
  | getErr
deriving DecidableEq, Repr

/-- The state owned exclusively by run(): the ticker variable (none models a
nil ticker), a counter handing out fresh ticker identities, the number of
tickers created and not yet stopped, and the err variable holding the result
of the most recent syncConfigMap call. -/
structure SyncerState where
  ticker : Option Nat
  nextId : Nat
  live : Nat
  lastErr : Option String
deriving DecidableEq, Repr

/-- The state of run() when it enters its select loop: no ticker, no error. -/
def initState : SyncerState := { ticker := none, nextId := 0, live := 0, lastErr := none }

/-- The events run()'s select statement can wake up on. -/
inductive Event where
  | api : ApiMsg → Event
  | tick : Event
  | tickClosed : Event
  | ctxDone : Event
deriving DecidableEq, Repr

/-- The observable effects of processing one select iteration: the successor
state, how many syncConfigMap calls ran (0 or 1), the reply sent on the
errChan of a getErrRequest, and whether run() returned. -/
structure StepOut where
  state : SyncerState
  syncs : Nat
  reply : Option (Option String)
  stopped : Bool
deriving DecidableEq, Repr

/-- One iteration of run()'s select loop. syncResult is the value
syncConfigMap would return if it is called in this iteration.
- A startSyncRequest with a live ticker is ignored. Without one, a sync runs
  immediately (err takes its result) and a fresh ticker is created.
- A getErrRequest is answered with the current err value.
- A ticker tick runs one sync; a closed ticker channel stops and discards
  the ticker without running a sync (a tick cannot be delivered while the
  ticker variable is nil, since run() then selects on a nil channel; that
  impossible case is modelled as a no-op).
- Context cancellation returns from run(), which stops a live ticker via the
  deferred cleanup. -/
def step (st : SyncerState) (syncResult : Option String) (e : Event) : StepOut :=
  match e with
  | .api .startSync =>
    match st.ticker with
    | some _ => { state := st, syncs := 0, reply := none, stopped := false }
    | none =>
      { state := { ticker := some st.nextId, nextId := st.nextId + 1, live := st.live + 1,
                   lastErr := syncResult },
        syncs := 1, reply := none, stopped := false }
  | .api .getErr => { state := st, syncs := 0, reply := some st.lastErr, stopped := false }
  | .tick =>
    match st.ticker with
    | none => { state := st, syncs := 0, reply := none, stopped := false }
    | some _ =>
      { state := { st with lastErr := syncResult }, syncs := 1, reply := none, stopped := false }
  | .tickClosed =>
    match st.ticker with
    | none => { state := st, syncs := 0, reply := none, stopped := false }
    | some _ =>
      { state := { st with ticker := none, live := st.live - 1 }, syncs := 0, reply := none,
        stopped := false }
  | .ctxDone =>
    { state := { st with
        ticker := none
        live := st.live - (if st.ticker.isSome then 1 else 0) }
      syncs := 0
      reply := none
      stopped := true }

/-- The cumulative observations of running the loop over a list of events.
performed records the results of the completed syncConfigMap calls in
completion order; replies records the answers to getErrRequests in order. -/
structure RunOut where
  state : SyncerState
  performed : List (Option String)
  replies : List (Option String)
  stopped : Bool
deriving DecidableEq, Repr

/-- Run the select loop over a list of events, drawing each performed
sync's result from the head of the oracle list. After context cancellation
no further events are processed. -/
def runEvents (st : SyncerState) (oracle : List (Option String)) (es : List Event) : RunOut :=
  match es with
  | [] => { state := st, performed := [], replies := [], stopped := false }
  | e :: rest =>
    let r := oracle.headD none
    let out := step st r e
    if out.stopped then
      { state := out.state, performed := [], replies := [], stopped := true }
    else
      let later := runEvents out.state (if out.syncs == 0 then oracle else oracle.tail) rest
      { state := later.state
        performed := (if out.syncs == 0 then [] else [r]) ++ later.performed
        replies := (match out.reply with | none => [] | some a => [a]) ++ later.replies
        stopped := later.stopped }

/-- StartPeriodicSync performs a non-blocking send on the capacity-one api
channel: a select whose default branch drops the signal when the slot is
already occupied. Modelled on the channel's slot. -/
def startPeriodicSync (mailbox : Option ApiMsg) : Option ApiMsg :=
  match mailbox with
  | none => some ApiMsg.startSync
  | some m => some m

/-- Ticker bookkeeping invariant of the loop: exactly one ticker is live
when the ticker variable holds one, none otherwise. -/
def tickerInv (st : SyncerState) : Prop :=
  st.live = (if st.ticker.isSome then 1 else 0)

theorem step_tickerInv (st : SyncerState) (r : Option String) (e : Event)
    (h : tickerInv st) : tickerInv (step st r e).state := by
  unfold tickerInv at h ⊢
  cases e with
  | api m =>
    cases m with
    | startSync => cases ht : st.ticker <;> simp_all [step]
    | getErr => simpa [step] using h
  | tick => cases ht : st.ticker <;> simp_all [step]
  | tickClosed => cases ht : st.ticker <;> simp_all [step]
  | ctxDone => cases ht : st.ticker <;> simp_all [step]

theorem runEvents_tickerInv (st : SyncerState) (oracle : List (Option String))
    (es : List Event) (h : tickerInv st) : tickerInv (runEvents st oracle es).state := by
  induction es generalizing st oracle with
  | nil => simpa [runEvents] using h
  | cons e rest ih =>
    unfold runEvents
    dsimp only
    split
    · exact step_tickerInv st (oracle.headD none) e h
    · exact ih _ _ (step_tickerInv st (oracle.headD none) e h)

/-- The last element of a list, or a default when it is empty. -/
def lastOr (l : List (Option String)) (d : Option String) : Option String :=
  match l with
  | [] => d
  | x :: xs => lastOr xs x

theorem lastOr_append (a b : List (Option String)) (d : Option String) :
    lastOr (a ++ b) d = lastOr b (lastOr a d) := by
  induction a generalizing d with
  | nil => rfl
  | cons x xs ih => simp [lastOr, ih]

theorem step_lastErr_of_no_sync (st : SyncerState) (r : Option String) (e : Event)
    (h : (step st r e).syncs = 0) : (step st r e).state.lastErr = st.lastErr := by
  cases e with
  | api m => cases m with
    | startSync => cases ht : st.ticker <;> simp_all [step]
    | getErr => simp [step]
  | tick => cases ht : st.ticker <;> simp_all [step]
  | tickClosed => cases ht : st.ticker <;> simp_all [step]
  | ctxDone => simp [step]

theorem step_lastErr_of_sync (st : SyncerState) (r : Option String) (e : Event)
    (h : (step st r e).syncs ≠ 0) : (step st r e).state.lastErr = r := by
  cases e with
  | api m => cases m with
    | startSync => cases ht : st.ticker <;> simp_all [step]
    | getErr => simp [step] at h
  | tick => cases ht : st.ticker <;> simp_all [step]
  | tickClosed => cases ht : st.ticker <;> simp_all [step]
  | ctxDone => simp [step] at h

theorem runEvents_lastErr (st : SyncerState) (oracle : List (Option String))
    (es : List Event) :
    (runEvents st oracle es).state.lastErr =
      lastOr (runEvents st oracle es).performed st.lastErr := by
  induction es generalizing st oracle with
  | nil => simp [runEvents, lastOr]
  | cons e rest ih =>
    unfold runEvents
    dsimp only
    split
    · next hstop =>
      have h0 : (step st (oracle.headD none) e).syncs = 0 := by
        cases e with
        | api m => cases m with
          | startSync => cases ht : st.ticker <;> simp_all [step]
          | getErr => simp [step] at hstop
        | tick => cases ht : st.ticker <;> simp_all [step]
        | tickClosed => cases ht : st.ticker <;> simp_all [step]
        | ctxDone => simp [step]
      simpa [lastOr] using step_lastErr_of_no_sync st (oracle.headD none) e h0
    · rw [lastOr_append]
      cases hs : (step st (oracle.headD none) e).syncs == 0 with
      | true =>
        have h0 := step_lastErr_of_no_sync st (oracle.headD none) e (by simpa using hs)
        simp only [List.headD_eq_head?] at h0
        simp [ih, lastOr, h0]
      | false =>
        have h1 := step_lastErr_of_sync st (oracle.headD none) e (by simpa using hs)
        simp only [List.headD_eq_head?] at h1
        simp [ih, lastOr, h1]

example : (runEvents initState [] [Event.api ApiMsg.getErr]).replies = [none] := rfl

example : (runEvents initState [some "e1", none]
    [Event.api ApiMsg.startSync, Event.api ApiMsg.startSync, Event.tick,
     Event.api ApiMsg.getErr]).replies = [none] := rfl

example : (runEvents initState [some "e1"]
    [Event.api ApiMsg.startSync, Event.api ApiMsg.getErr]).replies = [some "e1"] := rfl

/-- C7: at most one recurring ticker is ever live: from the initial state,
any event sequence keeps the live ticker count at or below one; a start
request processed while a ticker exists changes nothing and performs no
synchronization; and StartPeriodicSync is a total function on the channel
slot that drops the signal when one is already pending. -/
theorem syncer_at_most_one_ticker (es : List Event) (oracle : List (Option String))
    (st : SyncerState) (r : Option String) (hActive : st.ticker.isSome = true)
    (mb : Option ApiMsg) (hmb : mb.isSome = true) :
    (runEvents initState oracle es).state.live ≤ 1
    ∧ (step st r (Event.api ApiMsg.startSync)).state = st
    ∧ (step st r (Event.api ApiMsg.startSync)).syncs = 0
    ∧ startPeriodicSync mb = mb := by
  rcases Option.isSome_iff_exists.mp hActive with ⟨tid, ht⟩
  rcases Option.isSome_iff_exists.mp hmb with ⟨m, hm⟩
  refine ⟨?_, ?_, ?_, ?_⟩
  · have h := runEvents_tickerInv initState oracle es rfl
    unfold tickerInv at h
    rw [h]
    split <;> omega
  · simp [step, ht]
  · simp [step, ht]
  · simp [startPeriodicSync, hm]

/-- C8: after any sequence of processed events, an error query is answered
with the result of the most recently completed synchronization — none when
no synchronization has completed yet — and answering it leaves the actor's
state unchanged, so the answer can never be stale or in-flight. -/
theorem syncer_error_query_last_sync (es : List Event) (oracle : List (Option String)) :
    (step (runEvents initState oracle es).state none (Event.api ApiMsg.getErr)).reply
      = some (lastOr (runEvents initState oracle es).performed none)
    ∧ (step (runEvents initState oracle es).state none (Event.api ApiMsg.getErr)).state
      = (runEvents initState oracle es).state := by
  constructor
  · show some (runEvents initState oracle es).state.lastErr = _
    rw [runEvents_lastErr]
    rfl
  · rfl

/-- C9: a closed ticker channel observed while a ticker is live makes the
loop stop and discard the ticker without performing a synchronization and
without terminating, and a subsequent start request performs an immediate
synchronization and arms a fresh ticker (a new identity, not the old one). -/
theorem syncer_ticker_closed_resets_then_restart (st : SyncerState) (tid : Nat)
    (r r2 : Option String) (hActive : st.ticker = some tid) (hfresh : tid < st.nextId) :
    (step st r Event.tickClosed).state.ticker = none
    ∧ (step st r Event.tickClosed).syncs = 0
    ∧ (step st r Event.tickClosed).state.lastErr = st.lastErr
    ∧ (step st r Event.tickClosed).stopped = false
    ∧ (step (step st r Event.tickClosed).state r2 (Event.api ApiMsg.startSync)).syncs = 1
    ∧ (step (step st r Event.tickClosed).state r2 (Event.api ApiMsg.startSync)).state.ticker
        = some st.nextId
    ∧ st.nextId ≠ tid
    ∧ (step (step st r Event.tickClosed).state r2 (Event.api ApiMsg.startSync)).state.lastErr
        = r2 := by
  have hne : st.nextId ≠ tid := Nat.ne_of_gt hfresh
  refine ⟨?_, ?_, ?_, ?_, ?_, ?_, hne, ?_⟩ <;> simp [step, hActive]

/-- An active syncer state used by the concrete witnesses. -/
def activeState : SyncerState := { ticker := some 0, nextId := 1, live := 1, lastErr := none }

/-- An active syncer state that retains an old synchronization error. -/
def activeErrState : SyncerState := { ticker := some 0, nextId := 1, live := 1, lastErr := some "old" }

theorem syncer_at_most_one_ticker_witness :
    (runEvents initState [some "boom", none]
        [Event.api ApiMsg.startSync, Event.tick]).state.live ≤ 1
    ∧ (step activeState none (Event.api ApiMsg.startSync)).state = activeState
    ∧ (step activeState none (Event.api ApiMsg.startSync)).syncs = 0
    ∧ startPeriodicSync (some ApiMsg.getErr) = some ApiMsg.getErr :=
  syncer_at_most_one_ticker [Event.api ApiMsg.startSync, Event.tick] [some "boom", none]
    activeState none rfl (some ApiMsg.getErr) rfl

theorem syncer_ticker_closed_resets_then_restart_witness :
    (step activeErrState none Event.tickClosed).state.ticker = none
    ∧ (step activeErrState none Event.tickClosed).syncs = 0
    ∧ (step activeErrState none Event.tickClosed).state.lastErr = some "old"
    ∧ (step activeErrState none Event.tickClosed).stopped = false
    ∧ (step (step activeErrState none Event.tickClosed).state (some "fresh")
        (Event.api ApiMsg.startSync)).syncs = 1
    ∧ (step (step activeErrState none Event.tickClosed).state (some "fresh")
        (Event.api ApiMsg.startSync)).state.ticker = some 1
    ∧ (1 : Nat) ≠ 0
    ∧ (step (step activeErrState none Event.tickClosed).state (some "fresh")
        (Event.api ApiMsg.startSync)).state.lastErr = some "fresh" :=
  syncer_ticker_closed_resets_then_restart activeErrState 0 none (some "fresh") rfl
    (by decide)

end ConfigSync

end Operator
